import Mathlib

/-!
Shallow embedding of the ESP32 RoboArm firmware (`src/roboarm/src/main.cpp`):
the calibration table, pulse mapper (`angleToUs`, `usToTick`), motion engine
(`startMove`, `updateMotion`, `setLed`, `setRgbLed`) and the command
dispatcher branches (`home`, `led`, `config`, `frame`).

Float arithmetic of the firmware is modelled over `ℚ`; machine integers are
modelled as `ℕ`/`ℤ` with explicit `% 2^w` at the points the C code performs a
narrowing cast, and float-to-integer casts are modelled with `Int.floor`
(all such casts in the firmware occur on nonnegative in-range values, where
C truncation coincides with the floor).
-/

namespace RoboArm

/-- Per-servo calibration entry, mirroring `struct ServoConfig`. -/
structure ServoConfig where
  min_us : ℕ
  max_us : ℕ
  offset_us : ℤ
  invert : Bool
deriving DecidableEq, Repr

/-- Number of servo channels (`NUM_SERVOS = 5`). -/
def NUM_SERVOS : ℕ := 5

/-- The two sequential clamping ifs at the top of `angleToUs`. -/
def clampDeg (deg : ℚ) : ℚ :=
  let d := if deg < -90 then -90 else deg
  if 90 < d then 90 else d

/-- The final safety clamp of `angleToUs`: low bound first, then high bound. -/
def clampUs (us : ℤ) : ℤ :=
  let u := if us < 800 then 800 else us
  if 2200 < u then 2200 else u

/-- `angleToUs(idx, deg)`: clamp the angle, normalize, invert if configured,
linearly interpolate between `min_us` and `max_us`, round, add the trim
offset, and apply the `[800, 2200]` safety clamp. -/
def angleToUs (cfg : ServoConfig) (deg : ℚ) : ℤ :=
  let d := clampDeg deg
  let t0 : ℚ := (d + 90) / 180
  let t : ℚ := if cfg.invert then 1 - t0 else t0
  let usf : ℚ := (cfg.min_us : ℚ) + t * ((cfg.max_us : ℚ) - (cfg.min_us : ℚ))
  let us : ℤ := ⌊usf + 1/2⌋ + cfg.offset_us
  clampUs us

/-- The two sequential clamping ifs of `usToTick`. -/
def clampTick (tick : ℚ) : ℚ :=
  let a := if tick < 0 then 0 else tick
  if 4095 < a then 4095 else a

/-- `usToTick(us, freqHz)`: convert a pulse width to a 12-bit PCA9685 tick
count at the given refresh frequency, clamping to `[0, 4095]` before the
rounding cast. -/
def usToTick (us : ℕ) (freqHz : ℚ) : ℤ :=
  let period_us : ℚ := 1000000 / freqHz
  let tick : ℚ := ((us : ℚ) * 4096) / period_us
  ⌊clampTick tick + 1/2⌋

lemma clampUs_lower (us : ℤ) : 800 ≤ clampUs us := by
  unfold clampUs
  dsimp only
  split_ifs <;> omega

lemma clampUs_upper (us : ℤ) : clampUs us ≤ 2200 := by
  unfold clampUs
  dsimp only
  split_ifs <;> omega

lemma clampDeg_idem (deg : ℚ) : clampDeg (clampDeg deg) = clampDeg deg := by
  unfold clampDeg
  dsimp only
  split_ifs <;> linarith

lemma clampTick_nonneg (t : ℚ) : 0 ≤ clampTick t := by
  unfold clampTick
  dsimp only
  split_ifs <;> linarith

lemma clampTick_le (t : ℚ) : clampTick t ≤ 4095 := by
  unfold clampTick
  dsimp only
  split_ifs <;> linarith

lemma clampTick_mono {a b : ℚ} (h : a ≤ b) : clampTick a ≤ clampTick b := by
  unfold clampTick
  dsimp only
  split_ifs <;> linarith

/-- The global mutable state of the firmware: calibration table, servo
frequency, current/start/target angle arrays, the auxiliary LED and RGB
channels, and the motion-segment bookkeeping. -/
structure RobotState where
  servoCfg : Fin 5 → ServoConfig
  servoHz : ℚ
  currDeg : Fin 5 → ℚ
  startDeg : Fin 5 → ℚ
  targetDeg : Fin 5 → ℚ
  currLed : ℕ
  startLed : ℕ
  targetLed : ℕ
  currR : ℕ
  currG : ℕ
  currB : ℕ
  startR : ℕ
  startG : ℕ
  startB : ℕ
  targetR : ℕ
  targetG : ℕ
  targetB : ℕ
  moving : Bool
  moveStartMs : ℕ
  moveDurMs : ℕ
  lastUpdateMs : ℕ

/-- Default calibration entry: `{1000, 2000, 0, false}` for every channel. -/
def defaultCfg : ServoConfig := ⟨1000, 2000, 0, false⟩

/-- The state after the global initializers run: all angles and LED values
zero, calibration at defaults, 50 Hz, not moving. -/
def initialState : RobotState where
  servoCfg := fun _ => defaultCfg
  servoHz := 50
  currDeg := fun _ => 0
  startDeg := fun _ => 0
  targetDeg := fun _ => 0
  currLed := 0
  startLed := 0
  targetLed := 0
  currR := 0
  currG := 0
  currB := 0
  startR := 0
  startG := 0
  startB := 0
  targetR := 0
  targetG := 0
  targetB := 0
  moving := false
  moveStartMs := 0
  moveDurMs := 0
  lastUpdateMs := 0

/-- `startMove`: snapshot the current values as the new segment's start,
store the targets, record the start time (`millis()` passed explicitly as
`now`), floor the duration to a minimum of 1, and enter the Moving state. -/
def startMove (s : RobotState) (deg : Fin 5 → ℚ) (durationMs : ℕ)
    (ledVal r g b : ℕ) (now : ℕ) : RobotState :=
  { s with
    startDeg := s.currDeg
    targetDeg := deg
    startLed := s.currLed
    targetLed := ledVal
    startR := s.currR
    startG := s.currG
    startB := s.currB
    targetR := r
    targetG := g
    targetB := b
    moveStartMs := now
    moveDurMs := max 1 durationMs
    moving := true }

/-- One auxiliary-channel interpolation step:
`(uint8_t)(start + (int)(target - start) * t)`. The float-to-`uint8_t`
cast is modelled as floor followed by `% 256` (the value is nonnegative and
below 256 whenever `t ∈ [0,1)` and both endpoints are bytes). -/
def lerpByte (st tg : ℕ) (t : ℚ) : ℕ :=
  (⌊(st : ℚ) + ((tg : ℚ) - (st : ℚ)) * t⌋).toNat % 256

/-- `updateMotion` called at wall-clock time `now` (ms): no-op when Idle;
snap to targets and leave Moving when `t ≥ 1`; otherwise linearly
interpolate every channel at normalized time `t` and rate-limit the output
flush timestamp. -/
def updateMotion (s : RobotState) (now : ℕ) : RobotState :=
  if s.moving = false then s
  else
    let t : ℚ := ((now - s.moveStartMs : ℕ) : ℚ) / (s.moveDurMs : ℚ)
    if 1 ≤ t then
      { s with
        currDeg := s.targetDeg
        currLed := s.targetLed
        currR := s.targetR
        currG := s.targetG
        currB := s.targetB
        moving := false }
    else
      { s with
        currDeg := fun i => s.startDeg i + (s.targetDeg i - s.startDeg i) * t
        currLed := lerpByte s.startLed s.targetLed t
        currR := lerpByte s.startR s.targetR t
        currG := lerpByte s.startG s.targetG t
        currB := lerpByte s.startB s.targetB t
        lastUpdateMs := if 15 ≤ now - s.lastUpdateMs then now else s.lastUpdateMs }

/-- `setLed(val)`: write the LED value into both target and current,
with no interpolation. -/
def setLed (s : RobotState) (val : ℕ) : RobotState :=
  { s with targetLed := val, currLed := val }

/-- `setRgbLed(r, g, b)`: write the RGB triple into both target and
current, with no interpolation. -/
def setRgbLed (s : RobotState) (r g b : ℕ) : RobotState :=
  { s with
    targetR := r
    targetG := g
    targetB := b
    currR := r
    currG := g
    currB := b }

/-- Reply sent back to the requesting client: `{ok:true}` or
`{ok:false, err:...}`. -/
inductive Reply where
  | ok : Reply
  | err : String → Reply
deriving DecidableEq, Repr

/-- Wrap an integer to `int16_t` range, as `as<int16_t>()` does. -/
def toInt16 (x : ℤ) : ℤ := (x + 32768) % 65536 - 32768

/-- The `led` command branch: `val` defaults to `-1` when absent; a value
outside `0..255` is rejected with `led_range_0_255` before any mutation. -/
def handleLed (s : RobotState) (val : Option ℤ) : RobotState × Reply :=
  let v := val.getD (-1)
  if v < 0 ∨ 255 < v then (s, Reply.err "led_range_0_255")
  else (setLed s v.toNat, Reply.ok)

/-- The `rgb` command branch: each component defaults to `-1`; any
component outside `0..255` is rejected with `rgb_range_0_255`. -/
def handleRgb (s : RobotState) (r g b : Option ℤ) : RobotState × Reply :=
  let rv := r.getD (-1)
  let gv := g.getD (-1)
  let bv := b.getD (-1)
  if rv < 0 ∨ 255 < rv ∨ gv < 0 ∨ 255 < gv ∨ bv < 0 ∨ 255 < bv then
    (s, Reply.err "rgb_range_0_255")
  else (setRgbLed s rv.toNat gv.toNat bv.toNat, Reply.ok)

/-- The `config` command branch: reject an absent or out-of-range channel
index with `bad_ch`; otherwise overwrite exactly the supplied subset of
calibration fields (with the `uint16_t`/`int16_t` narrowing the
`as<...>()` conversions perform), retaining omitted fields. -/
def handleConfig (s : RobotState) (ch : Option ℤ) (minUs maxUs : Option ℕ)
    (offsetUs : Option ℤ) (inv : Option Bool) : RobotState × Reply :=
  let c := ch.getD (-1)
  if h : c < 0 ∨ 5 ≤ c then (s, Reply.err "bad_ch")
  else
    let i : Fin 5 := ⟨c.toNat, by omega⟩
    let e := s.servoCfg i
    let e1 : ServoConfig :=
      { min_us := match minUs with | some v => v % 65536 | none => e.min_us
        max_us := match maxUs with | some v => v % 65536 | none => e.max_us
        offset_us := match offsetUs with | some v => toInt16 v | none => e.offset_us
        invert := match inv with | some v => v | none => e.invert }
    ({ s with servoCfg := Function.update s.servoCfg i e1 }, Reply.ok)

/-- The `home` command branch: move every joint to 0°, with `ms`
defaulting to 800, `led` defaulting to the current LED value, and each RGB
component defaulting to 0. Never fails. -/
def handleHome (s : RobotState) (ms : Option ℕ) (led : Option ℕ)
    (rgbR rgbG rgbB : Option ℕ) (now : ℕ) : RobotState × Reply :=
  let d : Fin 5 → ℚ := fun _ => 0
  let msv := ms.getD 800
  let ledVal := match led with | some v => v % 256 | none => s.currLed
  let r := match rgbR with | some v => v % 256 | none => 0
  let g := match rgbG with | some v => v % 256 | none => 0
  let b := match rgbB with | some v => v % 256 | none => 0
  (startMove s d msv ledVal r g b now, Reply.ok)

/-- The `frame` command branch: an absent or empty `deg` array is rejected
with `missing_deg`; otherwise channels beyond the array length hold their
current angle, `ms` defaults to 100, `led` (read as `int`) defaults to the
current LED and falls back to it when negative before the `uint8_t` cast,
and each RGB component defaults to its current value. -/
def handleFrame (s : RobotState) (deg : Option (List ℚ)) (ms : Option ℕ)
    (led : Option ℤ) (rgbR rgbG rgbB : Option ℕ) (now : ℕ) :
    RobotState × Reply :=
  match deg with
  | none => (s, Reply.err "missing_deg")
  | some arr =>
    if arr.length = 0 then (s, Reply.err "missing_deg")
    else
      let d : Fin 5 → ℚ := fun i =>
        if h : i.val < arr.length then arr.get ⟨i.val, h⟩ else s.currDeg i
      let msv := ms.getD 100
      let ledVal0 : ℤ := led.getD (s.currLed : ℤ)
      let ledVal : ℤ := if ledVal0 < 0 then (s.currLed : ℤ) else ledVal0
      let r := match rgbR with | some v => v % 256 | none => s.currR
      let g := match rgbG with | some v => v % 256 | none => s.currG
      let b := match rgbB with | some v => v % 256 | none => s.currB
      (startMove s d msv (ledVal.toNat % 256) r g b now, Reply.ok)

lemma updateMotion_idle (s : RobotState) (now : ℕ) (h : s.moving = false) :
    updateMotion s now = s := by
  unfold updateMotion
  rw [if_pos h]

lemma updateMotion_snap (s : RobotState) (now : ℕ) (hmov : s.moving = true)
    (hdur : 1 ≤ s.moveDurMs) (hnow : s.moveStartMs + s.moveDurMs ≤ now) :
    updateMotion s now =
      { s with
        currDeg := s.targetDeg
        currLed := s.targetLed
        currR := s.targetR
        currG := s.targetG
        currB := s.targetB
        moving := false } := by
  unfold updateMotion
  rw [hmov]
  rw [if_neg (by simp)]
  dsimp only
  rw [if_pos ?_]
  have hd : (0 : ℚ) < (s.moveDurMs : ℚ) := by
    exact_mod_cast Nat.lt_of_lt_of_le Nat.zero_lt_one hdur
  rw [le_div_iff₀ hd, one_mul]
  exact_mod_cast Nat.le_sub_of_add_le (by omega)

/-- C1: `angleToUs` computes the pulse width by clamping the angle to
`[-90, +90]` (so it agrees with itself applied to the clamped angle),
normalizing, optionally inverting, interpolating between `min_us` and
`max_us`, adding the trim offset, and finally applying the absolute safety
clamp; in particular the result lies in `[800, 2200]` for every angle and
every calibration entry. -/
theorem angleToUs_clamps_and_bounds (cfg : ServoConfig) (deg : ℚ) :
    800 ≤ angleToUs cfg deg ∧ angleToUs cfg deg ≤ 2200 ∧
      angleToUs cfg deg = angleToUs cfg (clampDeg deg) := by
  refine ⟨clampUs_lower _, clampUs_upper _, ?_⟩
  unfold angleToUs
  rw [clampDeg_idem]

/-- C1 witness: evaluate the theorem at a concrete angle and the default
calibration entry. -/
theorem angleToUs_clamps_and_bounds_witness :
    800 ≤ angleToUs defaultCfg 45 ∧ angleToUs defaultCfg 45 ≤ 2200 ∧
      angleToUs defaultCfg 45 = angleToUs defaultCfg (clampDeg 45) :=
  angleToUs_clamps_and_bounds defaultCfg 45

/-- C5: for every refresh frequency in the accepted 40–60 Hz band,
`usToTick` is monotone non-decreasing in the pulse width, and its output
lies in `[0, 4095]` for every pulse-width input. -/
theorem usToTick_monotone_and_in_range (freqHz : ℚ) (h40 : 40 ≤ freqHz)
    (h60 : freqHz ≤ 60) :
    (∀ a b : ℕ, a ≤ b → usToTick a freqHz ≤ usToTick b freqHz) ∧
      ∀ u : ℕ, 0 ≤ usToTick u freqHz ∧ usToTick u freqHz ≤ 4095 := by
  have hf : (0 : ℚ) < freqHz := by linarith
  have hp : (0 : ℚ) < 1000000 / freqHz := div_pos (by norm_num) hf
  constructor
  · intro a b hab
    unfold usToTick
    dsimp only
    apply Int.floor_le_floor
    apply add_le_add_right
    apply clampTick_mono
    rw [div_eq_mul_inv, div_eq_mul_inv]
    apply mul_le_mul_of_nonneg_right ?_ (inv_nonneg.mpr hp.le)
    have hab' : (a : ℚ) ≤ (b : ℚ) := by exact_mod_cast hab
    linarith
  · intro u
    unfold usToTick
    dsimp only
    have h0 := clampTick_nonneg (((u : ℚ) * 4096) / (1000000 / freqHz))
    have h1 := clampTick_le (((u : ℚ) * 4096) / (1000000 / freqHz))
    constructor
    · exact Int.le_floor.mpr (by push_cast; linarith)
    · have h2 : ⌊clampTick (((u : ℚ) * 4096) / (1000000 / freqHz)) + 1/2⌋ <
          (4096 : ℤ) := Int.floor_lt.mpr (by push_cast; linarith)
      omega

/-- C5 witness: the theorem at 50 Hz, with monotonicity applied at the
pulse pair 1000 ≤ 2000 and the range bound at pulse width 1500. -/
theorem usToTick_monotone_and_in_range_witness :
    usToTick 1000 50 ≤ usToTick 2000 50 ∧
      0 ≤ usToTick 1500 50 ∧ usToTick 1500 50 ≤ 4095 :=
  ⟨(usToTick_monotone_and_in_range 50 (by norm_num) (by norm_num)).1 1000 2000
      (by norm_num),
    (usToTick_monotone_and_in_range 50 (by norm_num) (by norm_num)).2 1500⟩

/-- C2: `startMove` captures the current (possibly mid-interpolation)
values of every joint and auxiliary channel as the new segment's start; in
the concrete retargeting scenario — a 1000 ms move from 0° to 90°,
advanced 500 ms, then retargeted — the new segment's start is the
interpolated 45°, not the old start 0° or the old target 90°. -/
theorem startMove_captures_current_state :
    (∀ (s : RobotState) (deg : Fin 5 → ℚ) (dur ledVal r g b now : ℕ),
        (startMove s deg dur ledVal r g b now).startDeg = s.currDeg ∧
        (startMove s deg dur ledVal r g b now).startLed = s.currLed ∧
        (startMove s deg dur ledVal r g b now).startR = s.currR ∧
        (startMove s deg dur ledVal r g b now).startG = s.currG ∧
        (startMove s deg dur ledVal r g b now).startB = s.currB) ∧
    (startMove
        (updateMotion (startMove initialState (fun _ => 90) 1000 0 0 0 0 0) 500)
        (fun _ => 0) 500 0 0 0 0 500).startDeg 0 = 45 := by
  constructor
  · intro s deg dur ledVal r g b now
    exact ⟨rfl, rfl, rfl, rfl, rfl⟩
  · norm_num [startMove, updateMotion, initialState]

/-- C3 counterexample: start a 1000 ms segment (LED start 0, LED target 0),
then `setLed 200` — current and target both become 200 — then advance to
the segment midpoint: `updateMotion` re-interpolates the LED from the
segment's stale start 0 toward the new target 200 and overwrites the
current value with 100 ≠ 200, so the set value does not hold while a
motion segment is in progress. -/
theorem setLed_not_held_mid_motion_cex :
    (setLed (startMove initialState (fun _ => 0) 1000 0 0 0 0 0) 200).currLed
        = 200 ∧
    (setLed (startMove initialState (fun _ => 0) 1000 0 0 0 0 0) 200).targetLed
        = 200 ∧
    (updateMotion
        (setLed (startMove initialState (fun _ => 0) 1000 0 0 0 0 0) 200)
        500).targetLed = 200 ∧
    (updateMotion
        (setLed (startMove initialState (fun _ => 0) 1000 0 0 0 0 0) 200)
        500).currLed = 100 := by
  norm_num [setLed, startMove, updateMotion, initialState, lerpByte]
  rfl

/-- C3 (amended): an accepted `led`/`rgb` command sets the auxiliary
channel immediately, mirroring the value into both current and target; for
both commands the value holds under subsequent engine advances when the
engine is Idle, and when a motion segment is in progress it is guaranteed
to hold again only once the segment completes (mid-segment advances
re-interpolate from the segment's stale start value). -/
theorem setLed_immediate_mirror_and_hold :
    (∀ (s : RobotState) (v : ℕ),
        (setLed s v).currLed = v ∧ (setLed s v).targetLed = v) ∧
    (∀ (s : RobotState) (r g b : ℕ),
        (setRgbLed s r g b).currR = r ∧ (setRgbLed s r g b).currG = g ∧
        (setRgbLed s r g b).currB = b ∧ (setRgbLed s r g b).targetR = r ∧
        (setRgbLed s r g b).targetG = g ∧ (setRgbLed s r g b).targetB = b) ∧
    (∀ (s : RobotState) (v now : ℕ), s.moving = false →
        (updateMotion (setLed s v) now).currLed = v) ∧
    (∀ (s : RobotState) (v now : ℕ), 1 ≤ s.moveDurMs →
        s.moveStartMs + s.moveDurMs ≤ now →
        (updateMotion (setLed s v) now).currLed = v) ∧
    (∀ (s : RobotState) (r g b now : ℕ), s.moving = false →
        (updateMotion (setRgbLed s r g b) now).currR = r ∧
        (updateMotion (setRgbLed s r g b) now).currG = g ∧
        (updateMotion (setRgbLed s r g b) now).currB = b) ∧
    (∀ (s : RobotState) (r g b now : ℕ), 1 ≤ s.moveDurMs →
        s.moveStartMs + s.moveDurMs ≤ now →
        (updateMotion (setRgbLed s r g b) now).currR = r ∧
        (updateMotion (setRgbLed s r g b) now).currG = g ∧
        (updateMotion (setRgbLed s r g b) now).currB = b) := by
  refine ⟨fun s v => ⟨rfl, rfl⟩,
    fun s r g b => ⟨rfl, rfl, rfl, rfl, rfl, rfl⟩, ?_, ?_, ?_, ?_⟩
  · intro s v now h
    rw [updateMotion_idle (setLed s v) now h]
    rfl
  · intro s v now hdur hnow
    cases hm : s.moving with
    | false =>
      rw [updateMotion_idle (setLed s v) now hm]
      rfl
    | true =>
      rw [updateMotion_snap (setLed s v) now hm hdur hnow]
      rfl
  · intro s r g b now h
    rw [updateMotion_idle (setRgbLed s r g b) now h]
    exact ⟨rfl, rfl, rfl⟩
  · intro s r g b now hdur hnow
    cases hm : s.moving with
    | false =>
      rw [updateMotion_idle (setRgbLed s r g b) now hm]
      exact ⟨rfl, rfl, rfl⟩
    | true =>
      rw [updateMotion_snap (setRgbLed s r g b) now hm hdur hnow]
      exact ⟨rfl, rfl, rfl⟩

/-- C3 witness: the amended theorem applied with the engine Idle (LED
value 7 and color (1,2,3) held under an advance) and at the completion of
a 1000 ms segment (LED value 200 and color (9,8,7) re-attained at
`now = 1000`). -/
theorem setLed_immediate_mirror_and_hold_witness :
    (updateMotion (setLed initialState 7) 20).currLed = 7 ∧
    (updateMotion
        (setLed (startMove initialState (fun _ => 0) 1000 0 0 0 0 0) 200)
        1000).currLed = 200 ∧
    (updateMotion (setRgbLed initialState 1 2 3) 20).currR = 1 ∧
    (updateMotion (setRgbLed initialState 1 2 3) 20).currG = 2 ∧
    (updateMotion (setRgbLed initialState 1 2 3) 20).currB = 3 ∧
    (updateMotion
        (setRgbLed (startMove initialState (fun _ => 0) 1000 0 0 0 0 0) 9 8 7)
        1000).currR = 9 ∧
    (updateMotion
        (setRgbLed (startMove initialState (fun _ => 0) 1000 0 0 0 0 0) 9 8 7)
        1000).currG = 8 ∧
    (updateMotion
        (setRgbLed (startMove initialState (fun _ => 0) 1000 0 0 0 0 0) 9 8 7)
        1000).currB = 7 :=
  ⟨setLed_immediate_mirror_and_hold.2.2.1 initialState 7 20 rfl,
    setLed_immediate_mirror_and_hold.2.2.2.1
      (startMove initialState (fun _ => 0) 1000 0 0 0 0 0) 200 1000
      (by norm_num [startMove]) (by norm_num [startMove, initialState]),
    (setLed_immediate_mirror_and_hold.2.2.2.2.1 initialState 1 2 3 20 rfl).1,
    (setLed_immediate_mirror_and_hold.2.2.2.2.1 initialState 1 2 3 20 rfl).2.1,
    (setLed_immediate_mirror_and_hold.2.2.2.2.1 initialState 1 2 3 20 rfl).2.2,
    (setLed_immediate_mirror_and_hold.2.2.2.2.2
      (startMove initialState (fun _ => 0) 1000 0 0 0 0 0) 9 8 7 1000
      (by norm_num [startMove]) (by norm_num [startMove, initialState])).1,
    (setLed_immediate_mirror_and_hold.2.2.2.2.2
      (startMove initialState (fun _ => 0) 1000 0 0 0 0 0) 9 8 7 1000
      (by norm_num [startMove]) (by norm_num [startMove, initialState])).2.1,
    (setLed_immediate_mirror_and_hold.2.2.2.2.2
      (startMove initialState (fun _ => 0) 1000 0 0 0 0 0) 9 8 7 1000
      (by norm_num [startMove]) (by norm_num [startMove, initialState])).2.2⟩

/-- C4 counterexample: from the default table, the accepted command
`{cmd:"config", ch:0, min_us:3000}` leaves `max_us = 2000` and sets
`min_us = 3000`, so the `min_us < max_us` invariant is not preserved:
the `config` branch performs no validation of the calibration values. -/
theorem config_min_ge_max_cex :
    (handleConfig initialState (some 0) (some 3000) none none none).2
        = Reply.ok ∧
    ((handleConfig initialState (some 0) (some 3000) none none none).1.servoCfg
        0).min_us = 3000 ∧
    ((handleConfig initialState (some 0) (some 3000) none none none).1.servoCfg
        0).max_us = 2000 ∧
    ¬(((handleConfig initialState (some 0) (some 3000) none none
            none).1.servoCfg 0).min_us <
        ((handleConfig initialState (some 0) (some 3000) none none
            none).1.servoCfg 0).max_us) := by
  decide

/-- C4 (amended): the `min_us < max_us` invariant holds for the
default-initialized table, and is preserved by every `config` command that
supplies neither `min_us` nor `max_us`; a `config` command supplying either
bound stores it unvalidated and can therefore violate the invariant. -/
theorem config_invariant_preserved_without_bounds :
    (∀ i : Fin 5,
        (initialState.servoCfg i).min_us < (initialState.servoCfg i).max_us) ∧
    (∀ (s : RobotState) (ch : Option ℤ) (offsetUs : Option ℤ)
        (inv : Option Bool),
        (∀ i, (s.servoCfg i).min_us < (s.servoCfg i).max_us) →
        ∀ i, ((handleConfig s ch none none offsetUs inv).1.servoCfg i).min_us <
          ((handleConfig s ch none none offsetUs inv).1.servoCfg i).max_us) := by
  constructor
  · intro i
    norm_num [initialState, defaultCfg]
  · intro s ch offsetUs inv hinv i
    unfold handleConfig
    dsimp only
    split
    · exact hinv i
    · dsimp only
      rw [Function.update_apply]
      split_ifs with hi
      · exact hinv _
      · exact hinv i

/-- C4 witness: the amended theorem at the default table and an
invert-only `config` command on channel 1. -/
theorem config_invariant_preserved_without_bounds_witness :
    ((handleConfig initialState (some 1) none none none
        (some true)).1.servoCfg 1).min_us <
      ((handleConfig initialState (some 1) none none none
          (some true)).1.servoCfg 1).max_us :=
  config_invariant_preserved_without_bounds.2 initialState (some 1) none
    (some true) config_invariant_preserved_without_bounds.1 1

/-- C6: `startMove` floors a requested duration of 0 to 1 ms, and advancing
the engine by any strictly positive elapsed time (at least 1 ms, the
resolution of the millisecond clock) completes the move: every joint and
auxiliary channel's current value equals its target and the engine is Idle. -/
theorem zero_duration_move_instant (s : RobotState) (deg : Fin 5 → ℚ)
    (ledVal r g b now0 now : ℕ) (h : now0 + 1 ≤ now) :
    (startMove s deg 0 ledVal r g b now0).moveDurMs = 1 ∧
    (∀ i, (updateMotion (startMove s deg 0 ledVal r g b now0) now).currDeg i =
        (updateMotion (startMove s deg 0 ledVal r g b now0) now).targetDeg i) ∧
    (updateMotion (startMove s deg 0 ledVal r g b now0) now).currLed =
      (updateMotion (startMove s deg 0 ledVal r g b now0) now).targetLed ∧
    (updateMotion (startMove s deg 0 ledVal r g b now0) now).currR =
      (updateMotion (startMove s deg 0 ledVal r g b now0) now).targetR ∧
    (updateMotion (startMove s deg 0 ledVal r g b now0) now).currG =
      (updateMotion (startMove s deg 0 ledVal r g b now0) now).targetG ∧
    (updateMotion (startMove s deg 0 ledVal r g b now0) now).currB =
      (updateMotion (startMove s deg 0 ledVal r g b now0) now).targetB ∧
    (updateMotion (startMove s deg 0 ledVal r g b now0) now).moving = false := by
  have hsnap := updateMotion_snap (startMove s deg 0 ledVal r g b now0) now rfl
    (le_max_left 1 0) (by exact h)
  rw [hsnap]
  exact ⟨rfl, fun i => rfl, rfl, rfl, rfl, rfl, rfl⟩

/-- C6 witness: the theorem from the initial state with target 30° on all
joints, duration 0, started at time 0 and advanced to time 1. -/
theorem zero_duration_move_instant_witness :
    (startMove initialState (fun _ => 30) 0 5 1 2 3 0).moveDurMs = 1 ∧
    (∀ i, (updateMotion (startMove initialState (fun _ => 30) 0 5 1 2 3 0)
            1).currDeg i =
        (updateMotion (startMove initialState (fun _ => 30) 0 5 1 2 3 0)
            1).targetDeg i) ∧
    (updateMotion (startMove initialState (fun _ => 30) 0 5 1 2 3 0) 1).currLed =
      (updateMotion (startMove initialState (fun _ => 30) 0 5 1 2 3 0)
          1).targetLed ∧
    (updateMotion (startMove initialState (fun _ => 30) 0 5 1 2 3 0) 1).currR =
      (updateMotion (startMove initialState (fun _ => 30) 0 5 1 2 3 0)
          1).targetR ∧
    (updateMotion (startMove initialState (fun _ => 30) 0 5 1 2 3 0) 1).currG =
      (updateMotion (startMove initialState (fun _ => 30) 0 5 1 2 3 0)
          1).targetG ∧
    (updateMotion (startMove initialState (fun _ => 30) 0 5 1 2 3 0) 1).currB =
      (updateMotion (startMove initialState (fun _ => 30) 0 5 1 2 3 0)
          1).targetB ∧
    (updateMotion (startMove initialState (fun _ => 30) 0 5 1 2 3 0) 1).moving =
      false :=
  zero_duration_move_instant initialState (fun _ => 30) 5 1 2 3 0 1
    (by norm_num)

/-- C7: an accepted `frame` command with a 2-element `deg` array on the
5-channel system replies ok, sets channels 0 and 1's targets to the
requested angles, and — once the move completes — leaves channels 2, 3 and
4 equal to their values at the moment the command was dispatched, with
channels 0 and 1 at the requested angles and the engine Idle. -/
theorem frame_two_of_five (s : RobotState) (a0 a1 : ℚ) (ms : Option ℕ)
    (led : Option ℤ) (rR rG rB : Option ℕ) (now0 now : ℕ)
    (h : now0 + max 1 (ms.getD 100) ≤ now) :
    (handleFrame s (some [a0, a1]) ms led rR rG rB now0).2 = Reply.ok ∧
    (handleFrame s (some [a0, a1]) ms led rR rG rB now0).1.targetDeg 0 = a0 ∧
    (handleFrame s (some [a0, a1]) ms led rR rG rB now0).1.targetDeg 1 = a1 ∧
    (updateMotion (handleFrame s (some [a0, a1]) ms led rR rG rB now0).1
        now).currDeg 0 = a0 ∧
    (updateMotion (handleFrame s (some [a0, a1]) ms led rR rG rB now0).1
        now).currDeg 1 = a1 ∧
    (updateMotion (handleFrame s (some [a0, a1]) ms led rR rG rB now0).1
        now).currDeg 2 = s.currDeg 2 ∧
    (updateMotion (handleFrame s (some [a0, a1]) ms led rR rG rB now0).1
        now).currDeg 3 = s.currDeg 3 ∧
    (updateMotion (handleFrame s (some [a0, a1]) ms led rR rG rB now0).1
        now).currDeg 4 = s.currDeg 4 ∧
    (updateMotion (handleFrame s (some [a0, a1]) ms led rR rG rB now0).1
        now).moving = false := by
  have hsnap := updateMotion_snap
    (handleFrame s (some [a0, a1]) ms led rR rG rB now0).1 now rfl
    (le_max_left 1 (ms.getD 100)) (by exact h)
  rw [hsnap]
  exact ⟨rfl, rfl, rfl, rfl, rfl, rfl, rfl, rfl, rfl⟩

/-- C7 witness: the theorem from the initial state with requested angles
10° and 20°, all optional fields absent, dispatched at time 0 and advanced
to time 100 (the default-duration completion point). -/
theorem frame_two_of_five_witness :
    (handleFrame initialState (some [10, 20]) none none none none none 0).2
        = Reply.ok ∧
    (handleFrame initialState (some [10, 20]) none none none none none
        0).1.targetDeg 0 = 10 ∧
    (handleFrame initialState (some [10, 20]) none none none none none
        0).1.targetDeg 1 = 20 ∧
    (updateMotion (handleFrame initialState (some [10, 20]) none none none
        none none 0).1 100).currDeg 0 = 10 ∧
    (updateMotion (handleFrame initialState (some [10, 20]) none none none
        none none 0).1 100).currDeg 1 = 20 ∧
    (updateMotion (handleFrame initialState (some [10, 20]) none none none
        none none 0).1 100).currDeg 2 = initialState.currDeg 2 ∧
    (updateMotion (handleFrame initialState (some [10, 20]) none none none
        none none 0).1 100).currDeg 3 = initialState.currDeg 3 ∧
    (updateMotion (handleFrame initialState (some [10, 20]) none none none
        none none 0).1 100).currDeg 4 = initialState.currDeg 4 ∧
    (updateMotion (handleFrame initialState (some [10, 20]) none none none
        none none 0).1 100).moving = false :=
  frame_two_of_five initialState 10 20 none none none none none 0 100
    (by norm_num)

/-- C8: a `led` command whose `val` is outside `0..255` is rejected with
the reply `{ok:false, err:"led_range_0_255"}` and the entire state —
returned unchanged as the same `RobotState` — is left intact: validation
precedes mutation. -/
theorem led_range_error_no_mutation (s : RobotState) (v : ℤ)
    (h : v < 0 ∨ 255 < v) :
    handleLed s (some v) = (s, Reply.err "led_range_0_255") := by
  unfold handleLed
  simp only [Option.getD_some]
  rw [if_pos h]

/-- C8 witness: the theorem at the concrete out-of-range request
`{cmd:"led", val:300}` from the initial state. -/
theorem led_range_error_no_mutation_witness :
    handleLed initialState (some 300)
      = (initialState, Reply.err "led_range_0_255") :=
  led_range_error_no_mutation initialState 300 (Or.inr (by norm_num))

/-- C9: the `frame` command's `led` field is not range-validated: every
request with `led` greater than 255 is accepted with ok and the value is
truncated modulo 256 before becoming the illumination target (in
particular `led=300` yields target 44), while a negative `led` value
falls back to the current illumination value. -/
theorem frame_led_unvalidated (s : RobotState) (a : ℚ) (ms : Option ℕ)
    (rR rG rB : Option ℕ) (now : ℕ) :
    (∀ v : ℤ, 255 < v →
      (handleFrame s (some [a]) ms (some v) rR rG rB now).2 = Reply.ok ∧
      (handleFrame s (some [a]) ms (some v) rR rG rB now).1.targetLed
        = v.toNat % 256) ∧
    (handleFrame s (some [a]) ms (some 300) rR rG rB now).1.targetLed = 44 ∧
    ∀ v : ℤ, v < 0 → s.currLed ≤ 255 →
      (handleFrame s (some [a]) ms (some v) rR rG rB now).1.targetLed
        = s.currLed := by
  refine ⟨?_, ?_, ?_⟩
  · intro v hv
    refine ⟨rfl, ?_⟩
    show (if v < 0 then (s.currLed : ℤ) else v).toNat % 256 = v.toNat % 256
    rw [if_neg (by omega)]
  · show (if (300 : ℤ) < 0 then (s.currLed : ℤ) else 300).toNat % 256 = 44
    rw [if_neg (by norm_num)]
    decide
  · intro v hv hle
    show (if v < 0 then (s.currLed : ℤ) else v).toNat % 256 = s.currLed
    rw [if_pos hv, Int.toNat_natCast]
    exact Nat.mod_eq_of_lt (by omega)

/-- C9 witness: the theorem from the initial state, with the universal
part applied at `led=1000` (accepted, target `1000 % 256`), the concrete
part at `led=300` (target 44), and the fallback part at `led=-5` (falls
back to the current value). -/
theorem frame_led_unvalidated_witness :
    ((handleFrame initialState (some [0]) none (some 1000) none none none
        0).2 = Reply.ok ∧
      (handleFrame initialState (some [0]) none (some 1000) none none none
        0).1.targetLed = (1000 : ℤ).toNat % 256) ∧
    (handleFrame initialState (some [0]) none (some 300) none none none
        0).1.targetLed = 44 ∧
    (handleFrame initialState (some [0]) none (some (-5)) none none none
        0).1.targetLed = initialState.currLed :=
  ⟨(frame_led_unvalidated initialState 0 none none none none 0).1 1000
      (by norm_num),
    (frame_led_unvalidated initialState 0 none none none none 0).2.1,
    (frame_led_unvalidated initialState 0 none none none none 0).2.2 (-5)
      (by norm_num) (by norm_num [initialState])⟩

/-- C10: a `home` command omitting `rgb` targets the color `(0,0,0)` and
omitting `ms` uses an 800 ms duration, whereas a `frame` command omitting
`rgb` keeps the current color as the target and omitting `ms` uses a
100 ms duration. -/
theorem home_frame_rgb_ms_defaults (s : RobotState) (led : Option ℕ)
    (ledF : Option ℤ) (a : ℚ) (now : ℕ) :
    (handleHome s none led none none none now).1.targetR = 0 ∧
    (handleHome s none led none none none now).1.targetG = 0 ∧
    (handleHome s none led none none none now).1.targetB = 0 ∧
    (handleHome s none led none none none now).1.moveDurMs = 800 ∧
    (handleFrame s (some [a]) none ledF none none none now).1.targetR
        = s.currR ∧
    (handleFrame s (some [a]) none ledF none none none now).1.targetG
        = s.currG ∧
    (handleFrame s (some [a]) none ledF none none none now).1.targetB
        = s.currB ∧
    (handleFrame s (some [a]) none ledF none none none now).1.moveDurMs
        = 100 :=
  ⟨rfl, rfl, rfl, rfl, rfl, rfl, rfl, rfl⟩

end RoboArm
